import Mathlib

/-!
Shallow embedding of the supervisor core of `relayer/src/supervisor.rs`
(inter-chain relayer event-routing engine), together with proofs about
its event classifier (`collect_events`), its filter pipeline
(`relay_on_object`), its batch dispatcher (`process_batch` /
`handle_batch`) and its live-reconfiguration commands (`add_chain`,
`remove_chain`).

Collaborators that live outside the embedded file (the `Object`
constructors of `object.rs`, the `Registry`, the `FilterPolicy` of
`client_state_filter.rs`, the `SpawnContext` of `spawn.rs` and the
worker channel behaviour) are modelled from the specification; each
such definition carries a doc comment saying so.  Chain queries that
those collaborators perform at runtime are represented by oracle
fields of an `Env` record, so every definition stays executable.
-/

namespace Relayer

/-- Opaque string-like chain identifier (`ibc::ics24_host::identifier::ChainId`). -/
abbrev ChainId := String

/-- Opaque string-like port identifier. -/
abbrev PortId := String

/-- Opaque string-like channel identifier. -/
abbrev ChannelId := String

/-- Opaque string-like connection identifier. -/
abbrev ConnectionId := String

/-- Opaque string-like client identifier. -/
abbrev ClientId := String

/-- Heights are `(revision, height)` pairs. -/
abbrev Height := Nat × Nat

/-- Routing key derived from an event (`object.rs`), four variants,
mirroring the fields listed in the data model. -/
inductive Object where
  | Client (dst_chain_id : ChainId) (dst_client_id : ClientId) (src_chain_id : ChainId)
  | Connection (dst_chain_id : ChainId) (src_chain_id : ChainId)
      (src_connection_id : ConnectionId)
  | Channel (dst_chain_id : ChainId) (src_chain_id : ChainId)
      (src_channel_id : ChannelId) (src_port_id : PortId)
  | Packet (dst_chain_id : ChainId) (src_chain_id : ChainId)
      (src_channel_id : ChannelId) (src_port_id : PortId)
deriving DecidableEq, Repr

/-- The source chain of an object. -/
def Object.src_chain_id : Object → ChainId
  | .Client _ _ s => s
  | .Connection _ s _ => s
  | .Channel _ s _ _ => s
  | .Packet _ s _ _ => s

/-- The destination chain of an object. -/
def Object.dst_chain_id : Object → ChainId
  | .Client d _ _ => d
  | .Connection d _ _ => d
  | .Channel d _ _ _ => d
  | .Packet d _ _ _ => d

/-- Whether the object is a `Channel` handshake routing key. -/
def Object.isChannel : Object → Bool
  | .Channel _ _ _ _ => true
  | _ => false

/-- Stable short textual name of an object, used in logs. -/
def Object.short_name : Object → String
  | .Client d c s => "client:" ++ d ++ ":" ++ c ++ ":" ++ s
  | .Connection d s c => "connection:" ++ d ++ ":" ++ s ++ ":" ++ c
  | .Channel d s c p => "channel:" ++ d ++ ":" ++ s ++ ":" ++ c ++ ":" ++ p
  | .Packet d s c p => "packet:" ++ d ++ ":" ++ s ++ ":" ++ c ++ ":" ++ p

/-- Attributes of an `UpdateClient` event.  The `counterparty_chain_id`
field stands for the chain id recovered from the client state query that
`Object::for_update_client` performs; `none` models a failed query. -/
structure UpdateAttrs where
  client_id : ClientId
  counterparty_chain_id : Option ChainId
deriving DecidableEq, Repr

/-- Attributes of a connection handshake event.  `connection_id` is
optional in the raw event; `counterparty_chain_id` stands for the chain
id recovered by the chain query, `none` modelling an ill-formed event or
failed resolution. -/
structure ConnAttrs where
  connection_id : Option ConnectionId
  counterparty_chain_id : Option ChainId
deriving DecidableEq, Repr

/-- Attributes of a channel handshake event.  `channel_id` is optional in
the raw event; the counterparty fields stand for the results of the chain
queries performed by the `Object` constructors, with `none` modelling
ill-formed attributes or a failed resolution. -/
structure ChanAttrs where
  port_id : PortId
  channel_id : Option ChannelId
  counterparty_chain_id : Option ChainId
  counterparty_client_id : Option ClientId
deriving DecidableEq, Repr

/-- Attributes of a packet lifecycle event; `counterparty_chain_id`
stands for the destination chain recovered from the event, `none`
modelling ill-formed attributes. -/
structure PacketAttrs where
  src_port_id : PortId
  src_channel_id : ChannelId
  counterparty_chain_id : Option ChainId
deriving DecidableEq, Repr

/-- The events the classifier inspects (`IbcEvent`); the catch-all
`ChainError` stands for every event variant the classifier ignores. -/
inductive IbcEvent where
  | NewBlock (height : Height)
  | UpdateClient (u : UpdateAttrs)
  | OpenInitConnection (a : ConnAttrs)
  | OpenTryConnection (a : ConnAttrs)
  | OpenAckConnection (a : ConnAttrs)
  | OpenConfirmConnection (a : ConnAttrs)
  | OpenInitChannel (a : ChanAttrs)
  | OpenTryChannel (a : ChanAttrs)
  | OpenAckChannel (a : ChanAttrs)
  | OpenConfirmChannel (a : ChanAttrs)
  | SendPacket (p : PacketAttrs)
  | TimeoutPacket (p : PacketAttrs)
  | WriteAcknowledgement (p : PacketAttrs)
  | CloseInitChannel (p : PacketAttrs)
  | ChainError (msg : String)
deriving DecidableEq, Repr

/-- Whether the event is a `NewBlock`. -/
def IbcEvent.isNewBlock : IbcEvent → Bool
  | .NewBlock _ => true
  | _ => false

/-- Modelled from the spec: `Object::for_update_client` of `object.rs`
(not under `src/`).  Builds the `Client` routing key for an
`UpdateClient` event, failing when the client state query fails. -/
def Object.for_update_client (u : UpdateAttrs) (src_chain : ChainId) : Option Object :=
  match u.counterparty_chain_id with
  | some cp => some (Object.Client src_chain u.client_id cp)
  | none => none

/-- Modelled from the spec: `Object::connection_from_conn_open_events`
of `object.rs` (not under `src/`).  Classifies connection handshake
attributes to a `Connection` object. -/
def Object.connection_from_conn_open_events (a : ConnAttrs) (src_chain : ChainId) :
    Option Object :=
  match a.connection_id, a.counterparty_chain_id with
  | some cid, some dst => some (Object.Connection dst src_chain cid)
  | _, _ => none

/-- Modelled from the spec: `Object::client_from_chan_open_events` of
`object.rs` (not under `src/`).  Needs the channel id to perform the
query resolving the controlling client on the counterparty chain. -/
def Object.client_from_chan_open_events (a : ChanAttrs) (src_chain : ChainId) :
    Option Object :=
  match a.channel_id, a.counterparty_chain_id, a.counterparty_client_id with
  | some _, some dst, some cl => some (Object.Client dst cl src_chain)
  | _, _, _ => none

/-- Modelled from the spec: `Object::channel_from_chan_open_events` of
`object.rs` (not under `src/`). -/
def Object.channel_from_chan_open_events (a : ChanAttrs) (src_chain : ChainId) :
    Option Object :=
  match a.channel_id, a.counterparty_chain_id with
  | some ch, some dst => some (Object.Channel dst src_chain ch a.port_id)
  | _, _ => none

/-- Modelled from the spec: `Object::packet_from_chan_open_events` of
`object.rs` (not under `src/`). -/
def Object.packet_from_chan_open_events (a : ChanAttrs) (src_chain : ChainId) :
    Option Object :=
  match a.channel_id, a.counterparty_chain_id with
  | some ch, some dst => some (Object.Packet dst src_chain ch a.port_id)
  | _, _ => none

/-- Modelled from the spec: `Object::for_send_packet` of `object.rs`
(not under `src/`). -/
def Object.for_send_packet (p : PacketAttrs) (src_chain : ChainId) : Option Object :=
  match p.counterparty_chain_id with
  | some dst => some (Object.Packet dst src_chain p.src_channel_id p.src_port_id)
  | none => none

/-- Modelled from the spec: `Object::for_timeout_packet` of `object.rs`
(not under `src/`). -/
def Object.for_timeout_packet (p : PacketAttrs) (src_chain : ChainId) : Option Object :=
  match p.counterparty_chain_id with
  | some dst => some (Object.Packet dst src_chain p.src_channel_id p.src_port_id)
  | none => none

/-- Modelled from the spec: `Object::for_write_ack` of `object.rs`
(not under `src/`). -/
def Object.for_write_ack (p : PacketAttrs) (src_chain : ChainId) : Option Object :=
  match p.counterparty_chain_id with
  | some dst => some (Object.Packet dst src_chain p.src_channel_id p.src_port_id)
  | none => none

/-- Modelled from the spec: `Object::for_close_init_channel` of
`object.rs` (not under `src/`). -/
def Object.for_close_init_channel (p : PacketAttrs) (src_chain : ChainId) : Option Object :=
  match p.counterparty_chain_id with
  | some dst => some (Object.Packet dst src_chain p.src_channel_id p.src_port_id)
  | none => none

/-- `EventBatch`: the events of one chain at one height. -/
structure EventBatch where
  chain_id : ChainId
  height : Height
  events : List IbcEvent
deriving DecidableEq, Repr

/-- The `per_object` map of `CollectedEvents`: an association list from
objects to the events routed to them, modelling the `HashMap` with its
key-present / empty-list distinction intact. -/
abbrev PerObject := List (Object × List IbcEvent)

/-- `collected.per_object.entry(object).or_default().push(event)`:
append to the list of an existing key, or insert the key with a
singleton list. -/
def pushEvent (m : PerObject) (o : Object) (e : IbcEvent) : PerObject :=
  match m with
  | [] => [(o, [e])]
  | (k, v) :: rest => if k = o then (k, v ++ [e]) :: rest else (k, v) :: pushEvent rest o e

/-- The events stored under a key (empty when the key is absent). -/
def getEvents (m : PerObject) (o : Object) : List IbcEvent :=
  match m with
  | [] => []
  | (k, v) :: rest => if k = o then v else getEvents rest o

/-- Whether the key is present in the map. -/
def hasKey (m : PerObject) (o : Object) : Bool :=
  match m with
  | [] => false
  | (k, _) :: rest => if k = o then true else hasKey rest o

/-- Result of `collect_events` (`CollectedEvents` in `supervisor.rs`). -/
structure CollectedEvents where
  height : Height
  chain_id : ChainId
  new_block : Option IbcEvent
  per_object : PerObject
deriving DecidableEq, Repr

/-- `CollectedEvents::new`. -/
def CollectedEvents.new (height : Height) (chain_id : ChainId) : CollectedEvents :=
  { height := height, chain_id := chain_id, new_block := none, per_object := [] }

/-- Global section of the configuration. -/
structure GlobalConfig where
  filter : Bool
  handshake : Bool
deriving DecidableEq, Repr

/-- Per-chain configuration.  `allowed_channels` is the channel
allow-list behind `packets_on_channel_allowed` (modelled from the spec;
the concrete chain config lives outside `supervisor.rs`). -/
structure ChainConfig where
  id : ChainId
  allowed_channels : List (PortId × ChannelId)
deriving DecidableEq, Repr

/-- The relayer configuration shared with the supervisor. -/
structure Config where
  global : GlobalConfig
  chains : List ChainConfig
deriving DecidableEq, Repr

/-- `Config::has_chain`. -/
def Config.has_chain (cfg : Config) (id : ChainId) : Bool :=
  cfg.chains.any (fun ch => ch.id == id)

/-- `Config::handshake_enabled`. -/
def Config.handshake_enabled (cfg : Config) : Bool :=
  cfg.global.handshake

/-- Modelled from the spec: `Config::packets_on_channel_allowed`, a pure
query of the per-chain channel allow-list. -/
def Config.packets_on_channel_allowed (cfg : Config) (chain : ChainId)
    (port : PortId) (chan : ChannelId) : Bool :=
  match cfg.chains.find? (fun ch => ch.id == chain) with
  | some ch => ch.allowed_channels.contains (port, chan)
  | none => false

/-- One step of the classifier loop of `Supervisor::collect_events`:
process a single event of the batch, mirroring the `match` arms of the
source.  `handshake` is the `handshake_enabled` flag read from the
config, `workers` the objects currently present in the `WorkerMap`. -/
def collectEvent (handshake : Bool) (workers : List Object) (src : ChainId)
    (col : CollectedEvents) (ev : IbcEvent) : CollectedEvents :=
  match ev with
  | IbcEvent.NewBlock _ => { col with new_block := some ev }
  | IbcEvent.UpdateClient u =>
    match Object.for_update_client u src with
    | some o =>
      if o ∈ workers then { col with per_object := pushEvent col.per_object o ev } else col
    | none => col
  | IbcEvent.OpenInitConnection a | IbcEvent.OpenTryConnection a
  | IbcEvent.OpenAckConnection a =>
    if !handshake then col
    else
      match Object.connection_from_conn_open_events a src with
      | some o => { col with per_object := pushEvent col.per_object o ev }
      | none => col
  | IbcEvent.OpenInitChannel a | IbcEvent.OpenTryChannel a =>
    if !handshake then col
    else
      match Object.channel_from_chan_open_events a src with
      | some o => { col with per_object := pushEvent col.per_object o ev }
      | none => col
  | IbcEvent.OpenAckChannel a =>
    let col1 :=
      match Object.client_from_chan_open_events a src with
      | some o => { col with per_object := pushEvent col.per_object o ev }
      | none => col
    let col2 :=
      match Object.packet_from_chan_open_events a src with
      | some o => { col1 with per_object := pushEvent col1.per_object o ev }
      | none => col1
    if handshake then
      match Object.channel_from_chan_open_events a src with
      | some o => { col2 with per_object := pushEvent col2.per_object o ev }
      | none => col2
    else col2
  | IbcEvent.OpenConfirmChannel a =>
    let col1 :=
      match Object.client_from_chan_open_events a src with
      | some o => { col with per_object := pushEvent col.per_object o ev }
      | none => col
    match Object.packet_from_chan_open_events a src with
    | some o => { col1 with per_object := pushEvent col1.per_object o ev }
    | none => col1
  | IbcEvent.SendPacket p =>
    match Object.for_send_packet p src with
    | some o => { col with per_object := pushEvent col.per_object o ev }
    | none => col
  | IbcEvent.TimeoutPacket p =>
    match Object.for_timeout_packet p src with
    | some o => { col with per_object := pushEvent col.per_object o ev }
    | none => col
  | IbcEvent.WriteAcknowledgement p =>
    match Object.for_write_ack p src with
    | some o => { col with per_object := pushEvent col.per_object o ev }
    | none => col
  | IbcEvent.CloseInitChannel p =>
    match Object.for_close_init_channel p src with
    | some o => { col with per_object := pushEvent col.per_object o ev }
    | none => col
  | IbcEvent.OpenConfirmConnection _ => col
  | IbcEvent.ChainError _ => col

/-- `Supervisor::collect_events`: classify a batch into
`Object → [IbcEvent]` routings plus an optional `NewBlock`. -/
def collect_events (cfg : Config) (workers : List Object) (src_chain : ChainId)
    (batch : EventBatch) : CollectedEvents :=
  batch.events.foldl (collectEvent cfg.handshake_enabled workers src_chain)
    (CollectedEvents.new batch.height batch.chain_id)

/-- The last `NewBlock` event of a list, later events replacing earlier
ones; this is the reference value for the `new_block` field. -/
def lastNewBlock (l : List IbcEvent) : Option IbcEvent :=
  l.foldl (fun acc e => if e.isNewBlock then some e else acc) none

/-- Filter verdict of the client-state policy. -/
inductive Permission where
  | Allow
  | Deny
deriving DecidableEq, Repr

/-- Permission cache of the `FilterPolicy`, keyed by `(ChainId, ClientId)`. -/
abbrev Cache := List ((ChainId × ClientId) × Permission)

/-- Look up a cached permission. -/
def lookupCache (c : Cache) (k : ChainId × ClientId) : Option Permission :=
  match c with
  | [] => none
  | (k', p) :: rest => if k' = k then some p else lookupCache rest k

/-- Record a freshly computed permission (only called on a miss). -/
def insertCache (c : Cache) (k : ChainId × ClientId) (p : Permission) : Cache :=
  c ++ [(k, p)]

instance exceptDecEq {ε α : Type} [DecidableEq ε] [DecidableEq α] :
    DecidableEq (Except ε α) := fun a b =>
  match a, b with
  | Except.ok x, Except.ok y =>
    if h : x = y then Decidable.isTrue (by rw [h])
    else Decidable.isFalse (fun hc => h (Except.ok.inj hc))
  | Except.error x, Except.error y =>
    if h : x = y then Decidable.isTrue (by rw [h])
    else Decidable.isFalse (fun hc => h (Except.error.inj hc))
  | Except.ok _, Except.error _ =>
    Decidable.isFalse (fun hc => Except.noConfusion hc)
  | Except.error _, Except.ok _ =>
    Decidable.isFalse (fun hc => Except.noConfusion hc)

/-- Oracles standing for the chain-runtime collaborators that live
outside `supervisor.rs`: whether a chain runtime starts
(`runtime_ok`), whether a worker channel accepts a message
(`send_ok`), which objects a `SpawnContext` derives for a chain
(`derive_objects`), and the chain queries of the `FilterPolicy`
(`resolve_client`, `client_verdict`).  Modelled from the spec. -/
structure Env where
  runtime_ok : ChainId → Bool
  send_ok : Object → Bool
  derive_objects : Config → ChainId → List Object
  resolve_client : Object → Option (ChainId × ClientId)
  client_verdict : ChainId → ClientId → Except Unit Permission

/-- Modelled from the spec: the common body of the `FilterPolicy`
`control_*` methods (`client_state_filter.rs`, not under `src/`):
resolve the controlling client of the object via chain queries, reuse a
cached decision, query and cache on a miss, and propagate query
failures as `Err`. -/
def check_client (env : Env) (cache : Cache) (o : Object) :
    Except Unit Permission × Cache :=
  match env.resolve_client o with
  | none => (Except.error (), cache)
  | some k =>
    match lookupCache cache k with
    | some p => (Except.ok p, cache)
    | none =>
      match env.client_verdict k.1 k.2 with
      | Except.error _ => (Except.error (), cache)
      | Except.ok p => (Except.ok p, insertCache cache k p)

/-- Modelled from the spec: `FilterPolicy::control_client_object`. -/
def control_client_object (env : Env) (cache : Cache) (o : Object) :
    Except Unit Permission × Cache :=
  check_client env cache o

/-- Modelled from the spec: `FilterPolicy::control_conn_object`. -/
def control_conn_object (env : Env) (cache : Cache) (o : Object) :
    Except Unit Permission × Cache :=
  check_client env cache o

/-- Modelled from the spec: `FilterPolicy::control_chan_object`. -/
def control_chan_object (env : Env) (cache : Cache) (o : Object) :
    Except Unit Permission × Cache :=
  check_client env cache o

/-- Modelled from the spec: `FilterPolicy::control_packet_object`. -/
def control_packet_object (env : Env) (cache : Cache) (o : Object) :
    Except Unit Permission × Cache :=
  check_client env cache o

/-- The `control_*` dispatch of `Supervisor::relay_on_object`: pick the
`FilterPolicy` method matching the object's variant. -/
def control_for (env : Env) (cache : Cache) (o : Object) :
    Except Unit Permission × Cache :=
  match o with
  | Object.Client _ _ _ => control_client_object env cache o
  | Object.Connection _ _ _ => control_conn_object env cache o
  | Object.Channel _ _ _ _ => control_chan_object env cache o
  | Object.Packet _ _ _ _ => control_packet_object env cache o

/-- `Supervisor::channel_filter_enabled`: a wrapper over the global
filter flag. -/
def channel_filter_enabled (cfg : Config) : Bool :=
  cfg.global.filter

/-- `Supervisor::client_filter_enabled`: currently just a wrapper over
the global filter flag. -/
def client_filter_enabled (cfg : Config) : Bool :=
  cfg.global.filter

/-- `Supervisor::relay_packets_on_channel`: relay everything if the
channel filter is disabled, otherwise consult the allow-list. -/
def relay_packets_on_channel (cfg : Config) (chain_id : ChainId)
    (port : PortId) (chan : ChannelId) : Bool :=
  if !channel_filter_enabled cfg then true
  else cfg.packets_on_channel_allowed chain_id port chan

/-- The channel-filter test applied to an object by
`Supervisor::relay_on_object`: only `Packet` objects are subject to it. -/
def packet_channel_denied (cfg : Config) (chain_id : ChainId) (o : Object) : Bool :=
  match o with
  | Object.Packet _ _ ch pt => !relay_packets_on_channel cfg chain_id pt ch
  | _ => false

/-- Errors surfaced by batch processing: a chain runtime that could not
be spawned, or a failed send on a worker channel. -/
inductive PBErr where
  | spawnErr
  | sendErr
deriving DecidableEq, Repr

/-- The log lines the supervisor emits that the claims observe. -/
inductive LogEntry where
  | clientFilterDeny (name : String)
  | filterDenyErr (name : String)
  | batchError (e : PBErr)
  | batchOtherError
  | subscriptionCancelled (id : ChainId)
deriving DecidableEq, Repr

/-- `Supervisor::relay_on_object`: combine the channel filter and the
client filter.  Returns the verdict, the possibly updated permission
cache of the `FilterPolicy`, and the warn logs emitted. -/
def relay_on_object (env : Env) (cfg : Config) (cache : Cache)
    (chain_id : ChainId) (o : Object) : Bool × Cache × List LogEntry :=
  if !channel_filter_enabled cfg && !client_filter_enabled cfg then
    (true, cache, [])
  else if packet_channel_denied cfg chain_id o then
    (false, cache, [])
  else
    match control_for env cache o with
    | (Except.ok Permission.Allow, cache') => (true, cache', [])
    | (Except.ok Permission.Deny, cache') =>
      (false, cache', [LogEntry.clientFilterDeny o.short_name])
    | (Except.error _, cache') =>
      (false, cache', [LogEntry.filterDenyErr o.short_name])

/-- Modelled from the spec: `Registry::spawn` (`registry.rs`, not under
`src/`).  Fails if the id is unknown to the live config or if runtime
initialization fails; on failure the map is unchanged. -/
def Registry.spawn (env : Env) (cfg : Config) (reg : List ChainId) (id : ChainId) :
    Except Unit (List ChainId) :=
  if !cfg.has_chain id then Except.error ()
  else if !env.runtime_ok id then Except.error ()
  else if id ∈ reg then Except.ok reg
  else Except.ok (reg ++ [id])

/-- Modelled from the spec: `Registry::get_or_spawn` — idempotent, a
second call with the same id reuses the existing handle. -/
def Registry.get_or_spawn (env : Env) (cfg : Config) (reg : List ChainId)
    (id : ChainId) : Except Unit (List ChainId) :=
  if id ∈ reg then Except.ok reg else Registry.spawn env cfg reg id

/-- Modelled from the spec: `Registry::shutdown` — idempotent, tolerates
unknown ids. -/
def Registry.shutdown (reg : List ChainId) (id : ChainId) : List ChainId :=
  reg.filter (fun c => !(c == id))

/-- Effect of a supervisor command (`cmd.rs`). -/
inductive CmdEffect where
  | Nothing
  | ConfigChanged
deriving DecidableEq, Repr

/-- The supervisor state the claims observe: the shared config, the
chains spawned in the `Registry`, the objects with a live worker in the
`WorkerMap`, and the permission cache of the `FilterPolicy`. -/
structure SupervisorSt where
  config : Config
  registry : List ChainId
  workers : List Object
  cache : Cache
deriving DecidableEq, Repr

/-- Modelled from the spec: `SpawnContext::spawn_workers_for_chain`
(`spawn.rs`, not under `src/`): derive the objects implied by the
config for chains in which `id` participates and `get_or_spawn` a
worker for each. -/
def spawn_workers_for_chain (env : Env) (cfg : Config) (workers : List Object)
    (id : ChainId) : List Object :=
  (env.derive_objects cfg id).foldl
    (fun ws o => if o ∈ ws then ws else ws ++ [o]) workers

/-- Modelled from the spec: `SpawnContext::shutdown_workers_for_chain`
(`spawn.rs`, not under `src/`): drop every worker whose object mentions
`id` as source or destination. -/
def shutdown_workers_for_chain (workers : List Object) (id : ChainId) : List Object :=
  workers.filter (fun o => !(o.src_chain_id == id || o.dst_chain_id == id))

/-- `WorkerMap::workers_for_chain`: every worker whose object has the
chain as source or destination. -/
def workers_for_chain (workers : List Object) (id : ChainId) : List Object :=
  workers.filter (fun o => o.src_chain_id == id || o.dst_chain_id == id)

/-- `WorkerMap::to_notify`: the workers for which a `NewBlock` from the
chain is meaningful — those whose source chain is the chain. -/
def to_notify (workers : List Object) (id : ChainId) : List Object :=
  workers.filter (fun o => o.src_chain_id == id)

/-- `Supervisor::add_chain`: no-op when the chain is already configured;
otherwise push the config, spawn the runtime, roll the push back on a
spawn failure, and spawn the chain's workers on success. -/
def add_chain (env : Env) (st : SupervisorSt) (c : ChainConfig) :
    CmdEffect × SupervisorSt :=
  if st.config.has_chain c.id then (CmdEffect.Nothing, st)
  else
    let cfg1 : Config := { st.config with chains := st.config.chains ++ [c] }
    match Registry.spawn env cfg1 st.registry c.id with
    | Except.error _ =>
      let cfg2 : Config :=
        { cfg1 with chains := cfg1.chains.filter (fun ch => !(ch.id == c.id)) }
      (CmdEffect.Nothing, { st with config := cfg2 })
    | Except.ok reg' =>
      (CmdEffect.ConfigChanged,
        { st with
          config := cfg1
          registry := reg'
          workers := spawn_workers_for_chain env cfg1 st.workers c.id })

/-- `Supervisor::remove_chain`: no-op when the chain is not configured;
otherwise drop it from the config, shut its workers down, shut the
runtime down (the permission cache entries keyed by the chain are
invalidated, per the policy contract). -/
def remove_chain (st : SupervisorSt) (id : ChainId) : CmdEffect × SupervisorSt :=
  if !st.config.has_chain id then (CmdEffect.Nothing, st)
  else
    (CmdEffect.ConfigChanged,
      { config := { st.config with
          chains := st.config.chains.filter (fun ch => !(ch.id == id)) }
        registry := Registry.shutdown st.registry id
        workers := shutdown_workers_for_chain st.workers id
        cache := st.cache.filter (fun kp => !(kp.1.1 == id)) })

/-- A message the supervisor pushes to a worker channel while processing
a batch: the per-object events, a `NewBlock` notification, or a
`ClearPending` signal. -/
inductive Dispatch where
  | sent (o : Object) (height : Height) (events : List IbcEvent) (src : ChainId)
  | newBlockNotify (o : Object) (height : Height) (block : Height)
  | clearPending (o : Object)
deriving DecidableEq, Repr

/-- Mutable state threaded through the dispatch loop of
`Supervisor::process_batch`, plus the messages sent so far. -/
structure PBSt where
  cache : Cache
  registry : List ChainId
  workers : List Object
  out : List Dispatch
deriving Repr

/-- The `for (object, events) in collected.per_object.drain()` loop of
`Supervisor::process_batch`: filter, resolve the two chain handles,
get-or-spawn the worker and send; the `?` operator makes the first
failure return immediately with the mutations performed so far. -/
def dispatch_objects (env : Env) (cfg : Config) (hgt : Height) (cid : ChainId) :
    List (Object × List IbcEvent) → PBSt → Option PBErr × PBSt
  | [], st => (none, st)
  | (o, evs) :: rest, st =>
    let r := relay_on_object env cfg st.cache cid o
    let st1 : PBSt := { st with cache := r.2.1 }
    if r.1 = false then dispatch_objects env cfg hgt cid rest st1
    else if evs.isEmpty then dispatch_objects env cfg hgt cid rest st1
    else
      match Registry.get_or_spawn env cfg st1.registry o.src_chain_id with
      | Except.error _ => (some PBErr.spawnErr, st1)
      | Except.ok reg1 =>
        match Registry.get_or_spawn env cfg reg1 o.dst_chain_id with
        | Except.error _ => (some PBErr.spawnErr, { st1 with registry := reg1 })
        | Except.ok reg2 =>
          let st2 : PBSt :=
            { st1 with
              registry := reg2
              workers := if o ∈ st1.workers then st1.workers else st1.workers ++ [o] }
          if env.send_ok o then
            dispatch_objects env cfg hgt cid rest
              { st2 with out := st2.out ++ [Dispatch.sent o hgt evs cid] }
          else (some PBErr.sendErr, st2)

/-- The `NewBlock` forwarding loop of `Supervisor::process_batch`; the
`?` operator makes the first failed send return immediately. -/
def notify_new_block (env : Env) :
    List Object → Height → Height → List Dispatch → Option PBErr × List Dispatch
  | [], _, _, out => (none, out)
  | o :: rest, hgt, nb, out =>
    if env.send_ok o then
      notify_new_block env rest hgt nb (out ++ [Dispatch.newBlockNotify o hgt nb])
    else (some PBErr.sendErr, out)

/-- `Supervisor::process_batch`: classify the batch, dispatch each
per-object routing through the filters to its worker, then forward a
collected `NewBlock` to the affected workers.  Returns the error (if
any), the updated supervisor state, and the messages sent. -/
def process_batch (env : Env) (st : SupervisorSt) (batch : EventBatch) :
    Option PBErr × SupervisorSt × List Dispatch :=
  let collected := collect_events st.config st.workers batch.chain_id batch
  let r := dispatch_objects env st.config batch.height batch.chain_id
    collected.per_object
    { cache := st.cache, registry := st.registry, workers := st.workers, out := [] }
  let st' : SupervisorSt :=
    { st with cache := r.2.cache, registry := r.2.registry, workers := r.2.workers }
  match r.1 with
  | some e => (some e, st', r.2.out)
  | none =>
    match collected.new_block with
    | some (IbcEvent.NewBlock nb) =>
      let n := notify_new_block env (to_notify r.2.workers batch.chain_id)
        batch.height nb r.2.out
      (n.1, st', n.2)
    | _ => (none, st', r.2.out)

/-- Errors carried by a batch subscription. -/
inductive EventError where
  | SubscriptionCancelled (id : ChainId)
  | other (msg : String)
deriving DecidableEq, Repr

/-- The `ClearPending` forwarding loop of
`Supervisor::clear_pending_packets`; the `?` operator makes the first
failed send return immediately. -/
def clear_loop (env : Env) : List Object → List Dispatch → Option PBErr × List Dispatch
  | [], out => (none, out)
  | o :: rest, out =>
    if env.send_ok o then clear_loop env rest (out ++ [Dispatch.clearPending o])
    else (some PBErr.sendErr, out)

/-- `Supervisor::clear_pending_packets`: forward a `ClearPending` signal
to every worker of the chain. -/
def clear_pending_packets (env : Env) (st : SupervisorSt) (cid : ChainId) :
    Option PBErr × List Dispatch :=
  clear_loop env (workers_for_chain st.workers cid) []

/-- `Supervisor::handle_batch`: process the batch if it carries no
error; log a cancelled subscription and clear pending packets; log any
other error.  A failed `process_batch` is logged and does not escape. -/
def handle_batch (env : Env) (st : SupervisorSt) (b : Except EventError EventBatch) :
    SupervisorSt × List Dispatch × List LogEntry :=
  match b with
  | Except.ok batch =>
    match process_batch env st batch with
    | (some e, st', out) => (st', out, [LogEntry.batchError e])
    | (none, st', out) => (st', out, [])
  | Except.error (EventError.SubscriptionCancelled cid) =>
    match clear_pending_packets env st cid with
    | (some e, out) =>
      (st, out, [LogEntry.subscriptionCancelled cid, LogEntry.batchError e])
    | (none, out) => (st, out, [LogEntry.subscriptionCancelled cid])
  | Except.error (EventError.other _) => (st, [], [LogEntry.batchOtherError])

/-- The objects to which one classifier step routes the event; used to
reason uniformly about `collectEvent`'s effect on `per_object`. -/
def pushedObjects (handshake : Bool) (workers : List Object) (src : ChainId)
    (ev : IbcEvent) : List Object :=
  match ev with
  | IbcEvent.NewBlock _ => []
  | IbcEvent.UpdateClient u =>
    match Object.for_update_client u src with
    | some o => if o ∈ workers then [o] else []
    | none => []
  | IbcEvent.OpenInitConnection a | IbcEvent.OpenTryConnection a
  | IbcEvent.OpenAckConnection a =>
    if !handshake then []
    else (Object.connection_from_conn_open_events a src).toList
  | IbcEvent.OpenInitChannel a | IbcEvent.OpenTryChannel a =>
    if !handshake then []
    else (Object.channel_from_chan_open_events a src).toList
  | IbcEvent.OpenAckChannel a =>
    (Object.client_from_chan_open_events a src).toList ++
      (Object.packet_from_chan_open_events a src).toList ++
      (if handshake then (Object.channel_from_chan_open_events a src).toList else [])
  | IbcEvent.OpenConfirmChannel a =>
    (Object.client_from_chan_open_events a src).toList ++
      (Object.packet_from_chan_open_events a src).toList
  | IbcEvent.SendPacket p => (Object.for_send_packet p src).toList
  | IbcEvent.TimeoutPacket p => (Object.for_timeout_packet p src).toList
  | IbcEvent.WriteAcknowledgement p => (Object.for_write_ack p src).toList
  | IbcEvent.CloseInitChannel p => (Object.for_close_init_channel p src).toList
  | IbcEvent.OpenConfirmConnection _ => []
  | IbcEvent.ChainError _ => []

/-- Sample chain id. -/
def chainA : ChainId := "chain-a"

/-- Sample chain id. -/
def chainB : ChainId := "chain-b"

/-- Sample chain id, not configured initially. -/
def chainC : ChainId := "chain-c"

/-- Sample configuration with both filters and handshake relaying off. -/
def cfgOff : Config :=
  { global := { filter := false, handshake := false }
    chains := [{ id := chainA, allowed_channels := [] },
               { id := chainB, allowed_channels := [] }] }

/-- Sample configuration with the filter and handshake relaying on; only
`transfer/channel-0` is allow-listed. -/
def cfgOn : Config :=
  { global := { filter := true, handshake := true }
    chains := [{ id := chainA, allowed_channels := [("transfer", "channel-0")] },
               { id := chainB, allowed_channels := [("transfer", "channel-0")] }] }

/-- Sample packet routing key on the allow-listed channel. -/
def pObj1 : Object := Object.Packet chainB chainA ("channel-0") ("transfer")

/-- Sample packet routing key on another channel. -/
def pObj2 : Object := Object.Packet chainB chainA ("channel-1") ("transfer")

/-- Sample packet attributes resolving to `pObj1`. -/
def pkt1 : PacketAttrs :=
  { src_port_id := "transfer", src_channel_id := "channel-0"
    counterparty_chain_id := some chainB }

/-- Sample packet attributes resolving to `pObj2`. -/
def pkt2 : PacketAttrs :=
  { src_port_id := "transfer", src_channel_id := "channel-1"
    counterparty_chain_id := some chainB }

/-- Sample oracle environment: runtimes start, sends succeed, the policy
allows. -/
def envW : Env :=
  { runtime_ok := fun _ => true
    send_ok := fun _ => true
    derive_objects := fun _ _ => []
    resolve_client := fun o => some (o.dst_chain_id, "client-0")
    client_verdict := fun _ _ => Except.ok Permission.Allow }

/-- Sample environment whose chain runtimes refuse to start. -/
def envFail : Env := { envW with runtime_ok := fun _ => false }

/-- Sample environment whose client-state policy denies. -/
def envDeny : Env :=
  { envW with client_verdict := fun _ _ => Except.ok Permission.Deny }

/-- Sample environment whose client-state queries fail. -/
def envErr : Env := { envW with client_verdict := fun _ _ => Except.error () }

/-- Sample environment where the worker channel of `pObj1` is full. -/
def envC : Env := { envW with send_ok := fun o => decide (o ≠ pObj1) }

/-- Sample supervisor state over `cfgOff`. -/
def stOff : SupervisorSt :=
  { config := cfgOff, registry := [chainA, chainB], workers := [], cache := [] }

/-- Sample supervisor state over `cfgOn`. -/
def stOn : SupervisorSt :=
  { config := cfgOn, registry := [chainA, chainB], workers := [], cache := [] }

/-- Sample chain config for the not-yet-configured chain. -/
def ccC : ChainConfig := { id := chainC, allowed_channels := [] }

/-- Sample batch: two `SendPacket` events and a `NewBlock`. -/
def batchSend : EventBatch :=
  { chain_id := chainA, height := (0, 5)
    events := [IbcEvent.SendPacket pkt1, IbcEvent.SendPacket pkt2,
               IbcEvent.NewBlock (0, 5)] }

/-- Sample well-formed channel attributes. -/
def a0 : ChanAttrs :=
  { port_id := "transfer", channel_id := some ("channel-0")
    counterparty_chain_id := some chainB
    counterparty_client_id := some ("client-0") }

/-- Sample batch holding one `OpenAckChannel` event. -/
def batchAck : EventBatch :=
  { chain_id := chainA, height := (0, 7), events := [IbcEvent.OpenAckChannel a0] }

/-- The client routing key of `a0`'s `OpenAckChannel`. -/
def cObjAck : Object := Object.Client chainB ("client-0") chainA

/-- The channel routing key of `a0`'s `OpenAckChannel`. -/
def chanObjAck : Object := Object.Channel chainB chainA ("channel-0") ("transfer")

/-- Sample `UpdateClient` attributes. -/
def u0 : UpdateAttrs :=
  { client_id := "client-0", counterparty_chain_id := some chainB }

/-- The routing key of `u0`'s `UpdateClient` on chain A. -/
def uObj : Object := Object.Client chainA ("client-0") chainB

/-- Sample batch holding one `UpdateClient` event. -/
def batchUpd : EventBatch :=
  { chain_id := chainA, height := (0, 9), events := [IbcEvent.UpdateClient u0] }

/-- Sample dispatch-loop state. -/
def pbSt0 : PBSt :=
  { cache := [], registry := [chainA, chainB], workers := [], out := [] }

theorem getEvents_pushEvent (m : PerObject) (o' : Object) (e : IbcEvent) (o : Object) :
    getEvents (pushEvent m o' e) o =
      if o' = o then getEvents m o ++ [e] else getEvents m o := by
  induction m with
  | nil => by_cases h : o' = o <;> simp [pushEvent, getEvents, h]
  | cons kv rest ih =>
    obtain ⟨k, v⟩ := kv
    by_cases hk : k = o'
    · subst hk
      by_cases ho : k = o
      · subst ho
        simp [pushEvent, getEvents]
      · simp [pushEvent, getEvents, ho]
    · by_cases ho : k = o
      · have ho2 : ¬o' = o := fun hh => hk (ho.trans hh.symm)
        have ho3 : ¬o = o' := fun hh => hk (ho.trans hh)
        simp [pushEvent, getEvents, hk, ho, ho2, ho3]
      · simp [pushEvent, getEvents, hk, ho, ih]

theorem hasKey_pushEvent (m : PerObject) (o' : Object) (e : IbcEvent) (o : Object) :
    hasKey (pushEvent m o' e) o = (if o' = o then true else hasKey m o) := by
  induction m with
  | nil => by_cases h : o' = o <;> simp [pushEvent, hasKey, h]
  | cons kv rest ih =>
    obtain ⟨k, v⟩ := kv
    by_cases hk : k = o'
    · subst hk
      by_cases ho : k = o
      · subst ho
        simp [pushEvent, hasKey]
      · simp [pushEvent, hasKey, ho]
    · by_cases ho : k = o
      · have ho2 : ¬o' = o := fun hh => hk (ho.trans hh.symm)
        have ho3 : ¬o = o' := fun hh => hk (ho.trans hh)
        simp [pushEvent, hasKey, hk, ho, ho2, ho3]
      · simp [pushEvent, hasKey, hk, ho, ih]

theorem mem_getEvents_pushEvent {x : IbcEvent} (m : PerObject) (o' : Object)
    (e : IbcEvent) (o : Object) :
    x ∈ getEvents (pushEvent m o' e) o ↔
      x ∈ getEvents m o ∨ (o' = o ∧ x = e) := by
  rw [getEvents_pushEvent]
  by_cases h : o' = o <;> simp [h]

theorem pushEvent_pairs_nonempty {m : PerObject} {o' : Object} {e : IbcEvent}
    (h : ∀ p ∈ m, p.2 ≠ []) : ∀ p ∈ pushEvent m o' e, p.2 ≠ [] := by
  induction m with
  | nil =>
    intro p hp
    simp [pushEvent] at hp
    subst hp
    simp
  | cons kv rest ih =>
    obtain ⟨k, v⟩ := kv
    intro p hp
    by_cases hk : k = o'
    · simp [pushEvent, hk] at hp
      rcases hp with hp | hp
      · subst hp; simp
      · exact h p (List.mem_cons_of_mem _ hp)
    · simp [pushEvent, hk] at hp
      rcases hp with hp | hp
      · subst hp
        exact h _ (List.mem_cons_self _ _)
      · exact ih (fun q hq => h q (List.mem_cons_of_mem _ hq)) p hp

theorem mem_getEvents_foldl_push (l : List Object) (m : PerObject) (e : IbcEvent)
    (o : Object) (x : IbcEvent) :
    x ∈ getEvents (l.foldl (fun acc ob => pushEvent acc ob e) m) o ↔
      x ∈ getEvents m o ∨ (o ∈ l ∧ x = e) := by
  induction l generalizing m with
  | nil => simp
  | cons a l ih =>
    simp only [List.foldl_cons]
    rw [ih, mem_getEvents_pushEvent]
    constructor
    · rintro ((hx | ⟨rfl, rfl⟩) | ⟨hl, rfl⟩)
      · exact Or.inl hx
      · exact Or.inr ⟨List.mem_cons_self _ _, rfl⟩
      · exact Or.inr ⟨List.mem_cons_of_mem _ hl, rfl⟩
    · rintro (hx | ⟨hl, rfl⟩)
      · exact Or.inl (Or.inl hx)
      · rcases List.mem_cons.mp hl with rfl | hl
        · exact Or.inl (Or.inr ⟨rfl, rfl⟩)
        · exact Or.inr ⟨hl, rfl⟩

theorem hasKey_foldl_push (l : List Object) (m : PerObject) (e : IbcEvent)
    (o : Object) :
    hasKey (l.foldl (fun acc ob => pushEvent acc ob e) m) o = true ↔
      hasKey m o = true ∨ o ∈ l := by
  induction l generalizing m with
  | nil => simp
  | cons a l ih =>
    simp only [List.foldl_cons]
    rw [ih, hasKey_pushEvent]
    by_cases h : a = o
    · subst h
      simp
    · have h2 : ¬o = a := fun hh => h hh.symm
      simp [h, h2]

theorem foldl_push_pairs_nonempty (l : List Object) (m : PerObject) (e : IbcEvent)
    (h : ∀ p ∈ m, p.2 ≠ []) :
    ∀ p ∈ l.foldl (fun acc ob => pushEvent acc ob e) m, p.2 ≠ [] := by
  induction l generalizing m with
  | nil => exact h
  | cons a l ih => exact ih _ (pushEvent_pairs_nonempty h)

theorem collectEvent_per_object (hs : Bool) (w : List Object) (src : ChainId)
    (col : CollectedEvents) (ev : IbcEvent) :
    (collectEvent hs w src col ev).per_object =
      (pushedObjects hs w src ev).foldl (fun acc ob => pushEvent acc ob ev)
        col.per_object := by
  cases ev with
  | NewBlock hh => simp [collectEvent, pushedObjects]
  | UpdateClient u =>
    cases hu : Object.for_update_client u src with
    | none => simp [collectEvent, pushedObjects, hu]
    | some o => by_cases hw : o ∈ w <;> simp [collectEvent, pushedObjects, hu, hw]
  | OpenInitConnection a =>
    cases hs with
    | false => simp [collectEvent, pushedObjects]
    | true =>
      cases hc : Object.connection_from_conn_open_events a src <;>
        simp [collectEvent, pushedObjects, hc]
  | OpenTryConnection a =>
    cases hs with
    | false => simp [collectEvent, pushedObjects]
    | true =>
      cases hc : Object.connection_from_conn_open_events a src <;>
        simp [collectEvent, pushedObjects, hc]
  | OpenAckConnection a =>
    cases hs with
    | false => simp [collectEvent, pushedObjects]
    | true =>
      cases hc : Object.connection_from_conn_open_events a src <;>
        simp [collectEvent, pushedObjects, hc]
  | OpenConfirmConnection a => simp [collectEvent, pushedObjects]
  | OpenInitChannel a =>
    cases hs with
    | false => simp [collectEvent, pushedObjects]
    | true =>
      cases hc : Object.channel_from_chan_open_events a src <;>
        simp [collectEvent, pushedObjects, hc]
  | OpenTryChannel a =>
    cases hs with
    | false => simp [collectEvent, pushedObjects]
    | true =>
      cases hc : Object.channel_from_chan_open_events a src <;>
        simp [collectEvent, pushedObjects, hc]
  | OpenAckChannel a =>
    cases hs with
    | false =>
      cases hc : Object.client_from_chan_open_events a src <;>
        cases hp : Object.packet_from_chan_open_events a src <;>
          simp [collectEvent, pushedObjects, hc, hp]
    | true =>
      cases hc : Object.client_from_chan_open_events a src <;>
        cases hp : Object.packet_from_chan_open_events a src <;>
          cases hch : Object.channel_from_chan_open_events a src <;>
            simp [collectEvent, pushedObjects, hc, hp, hch]
  | OpenConfirmChannel a =>
    cases hc : Object.client_from_chan_open_events a src <;>
      cases hp : Object.packet_from_chan_open_events a src <;>
        simp [collectEvent, pushedObjects, hc, hp]
  | SendPacket p =>
    cases hc : Object.for_send_packet p src <;>
      simp [collectEvent, pushedObjects, hc]
  | TimeoutPacket p =>
    cases hc : Object.for_timeout_packet p src <;>
      simp [collectEvent, pushedObjects, hc]
  | WriteAcknowledgement p =>
    cases hc : Object.for_write_ack p src <;>
      simp [collectEvent, pushedObjects, hc]
  | CloseInitChannel p =>
    cases hc : Object.for_close_init_channel p src <;>
      simp [collectEvent, pushedObjects, hc]
  | ChainError s => simp [collectEvent, pushedObjects]

theorem collectEvent_new_block (hs : Bool) (w : List Object) (src : ChainId)
    (col : CollectedEvents) (ev : IbcEvent) :
    (collectEvent hs w src col ev).new_block =
      if ev.isNewBlock then some ev else col.new_block := by
  cases ev with
  | NewBlock hh => simp [collectEvent, IbcEvent.isNewBlock]
  | UpdateClient u =>
    cases hu : Object.for_update_client u src with
    | none => simp [collectEvent, IbcEvent.isNewBlock, hu]
    | some o =>
      by_cases hw : o ∈ w <;> simp [collectEvent, IbcEvent.isNewBlock, hu, hw]
  | OpenInitConnection a =>
    cases hs with
    | false => simp [collectEvent, IbcEvent.isNewBlock]
    | true =>
      cases hc : Object.connection_from_conn_open_events a src <;>
        simp [collectEvent, IbcEvent.isNewBlock, hc]
  | OpenTryConnection a =>
    cases hs with
    | false => simp [collectEvent, IbcEvent.isNewBlock]
    | true =>
      cases hc : Object.connection_from_conn_open_events a src <;>
        simp [collectEvent, IbcEvent.isNewBlock, hc]
  | OpenAckConnection a =>
    cases hs with
    | false => simp [collectEvent, IbcEvent.isNewBlock]
    | true =>
      cases hc : Object.connection_from_conn_open_events a src <;>
        simp [collectEvent, IbcEvent.isNewBlock, hc]
  | OpenConfirmConnection a => simp [collectEvent, IbcEvent.isNewBlock]
  | OpenInitChannel a =>
    cases hs with
    | false => simp [collectEvent, IbcEvent.isNewBlock]
    | true =>
      cases hc : Object.channel_from_chan_open_events a src <;>
        simp [collectEvent, IbcEvent.isNewBlock, hc]
  | OpenTryChannel a =>
    cases hs with
    | false => simp [collectEvent, IbcEvent.isNewBlock]
    | true =>
      cases hc : Object.channel_from_chan_open_events a src <;>
        simp [collectEvent, IbcEvent.isNewBlock, hc]
  | OpenAckChannel a =>
    cases hs with
    | false =>
      cases hc : Object.client_from_chan_open_events a src <;>
        cases hp : Object.packet_from_chan_open_events a src <;>
          simp [collectEvent, IbcEvent.isNewBlock, hc, hp]
    | true =>
      cases hc : Object.client_from_chan_open_events a src <;>
        cases hp : Object.packet_from_chan_open_events a src <;>
          cases hch : Object.channel_from_chan_open_events a src <;>
            simp [collectEvent, IbcEvent.isNewBlock, hc, hp, hch]
  | OpenConfirmChannel a =>
    cases hc : Object.client_from_chan_open_events a src <;>
      cases hp : Object.packet_from_chan_open_events a src <;>
        simp [collectEvent, IbcEvent.isNewBlock, hc, hp]
  | SendPacket p =>
    cases hc : Object.for_send_packet p src <;>
      simp [collectEvent, IbcEvent.isNewBlock, hc]
  | TimeoutPacket p =>
    cases hc : Object.for_timeout_packet p src <;>
      simp [collectEvent, IbcEvent.isNewBlock, hc]
  | WriteAcknowledgement p =>
    cases hc : Object.for_write_ack p src <;>
      simp [collectEvent, IbcEvent.isNewBlock, hc]
  | CloseInitChannel p =>
    cases hc : Object.for_close_init_channel p src <;>
      simp [collectEvent, IbcEvent.isNewBlock, hc]
  | ChainError s => simp [collectEvent, IbcEvent.isNewBlock]

theorem isChannel_for_update {u : UpdateAttrs} {src : ChainId} {o : Object}
    (h : Object.for_update_client u src = some o) : o.isChannel = false := by
  unfold Object.for_update_client at h
  split at h
  · injection h with h2
    subst h2
    rfl
  · exact Option.noConfusion h

theorem isChannel_client_from {a : ChanAttrs} {src : ChainId} {o : Object}
    (h : Object.client_from_chan_open_events a src = some o) : o.isChannel = false := by
  unfold Object.client_from_chan_open_events at h
  split at h
  · injection h with h2
    subst h2
    rfl
  · exact Option.noConfusion h

theorem isChannel_packet_from {a : ChanAttrs} {src : ChainId} {o : Object}
    (h : Object.packet_from_chan_open_events a src = some o) : o.isChannel = false := by
  unfold Object.packet_from_chan_open_events at h
  split at h
  · injection h with h2
    subst h2
    rfl
  · exact Option.noConfusion h

theorem isChannel_conn_from {a : ConnAttrs} {src : ChainId} {o : Object}
    (h : Object.connection_from_conn_open_events a src = some o) :
    o.isChannel = false := by
  unfold Object.connection_from_conn_open_events at h
  split at h
  · injection h with h2
    subst h2
    rfl
  · exact Option.noConfusion h

theorem isChannel_for_send {p : PacketAttrs} {src : ChainId} {o : Object}
    (h : Object.for_send_packet p src = some o) : o.isChannel = false := by
  unfold Object.for_send_packet at h
  split at h
  · injection h with h2
    subst h2
    rfl
  · exact Option.noConfusion h

theorem isChannel_for_timeout {p : PacketAttrs} {src : ChainId} {o : Object}
    (h : Object.for_timeout_packet p src = some o) : o.isChannel = false := by
  unfold Object.for_timeout_packet at h
  split at h
  · injection h with h2
    subst h2
    rfl
  · exact Option.noConfusion h

theorem isChannel_for_write_ack {p : PacketAttrs} {src : ChainId} {o : Object}
    (h : Object.for_write_ack p src = some o) : o.isChannel = false := by
  unfold Object.for_write_ack at h
  split at h
  · injection h with h2
    subst h2
    rfl
  · exact Option.noConfusion h

theorem isChannel_for_close_init {p : PacketAttrs} {src : ChainId} {o : Object}
    (h : Object.for_close_init_channel p src = some o) : o.isChannel = false := by
  unfold Object.for_close_init_channel at h
  split at h
  · injection h with h2
    subst h2
    rfl
  · exact Option.noConfusion h

theorem mem_getEvents_collect_foldl (hs : Bool) (w : List Object) (src : ChainId)
    (l : List IbcEvent) (col : CollectedEvents) (o : Object) (x : IbcEvent)
    (hx : x ∈ getEvents col.per_object o) :
    x ∈ getEvents (l.foldl (collectEvent hs w src) col).per_object o := by
  induction l generalizing col with
  | nil => exact hx
  | cons e l ih =>
    simp only [List.foldl_cons]
    refine ih _ ?_
    rw [collectEvent_per_object]
    exact (mem_getEvents_foldl_push _ _ _ _ _).mpr (Or.inl hx)

theorem collect_new_block_foldl (hs : Bool) (w : List Object) (src : ChainId)
    (l : List IbcEvent) (col : CollectedEvents) :
    (l.foldl (collectEvent hs w src) col).new_block =
      l.foldl (fun acc e => if e.isNewBlock then some e else acc) col.new_block := by
  induction l generalizing col with
  | nil => rfl
  | cons e l ih =>
    simp only [List.foldl_cons]
    rw [ih, collectEvent_new_block]

theorem collect_foldl_no_new_block (hs : Bool) (w : List Object) (src : ChainId)
    (l : List IbcEvent) (col : CollectedEvents)
    (h : ∀ o x, x ∈ getEvents col.per_object o → x.isNewBlock = false) :
    ∀ o x, x ∈ getEvents (l.foldl (collectEvent hs w src) col).per_object o →
      x.isNewBlock = false := by
  induction l generalizing col with
  | nil => exact h
  | cons e l ih =>
    simp only [List.foldl_cons]
    refine ih _ ?_
    intro o x hx
    rw [collectEvent_per_object] at hx
    rcases (mem_getEvents_foldl_push _ _ _ _ _).mp hx with hx | ⟨ho, hxe⟩
    · exact h o x hx
    · rw [hxe]
      cases e <;> first | rfl | simp [pushedObjects] at ho

theorem collect_foldl_nonempty (hs : Bool) (w : List Object) (src : ChainId)
    (l : List IbcEvent) (col : CollectedEvents)
    (h : ∀ p ∈ col.per_object, p.2 ≠ []) :
    ∀ p ∈ (l.foldl (collectEvent hs w src) col).per_object, p.2 ≠ [] := by
  induction l generalizing col with
  | nil => exact h
  | cons e l ih =>
    simp only [List.foldl_cons]
    refine ih _ ?_
    rw [collectEvent_per_object]
    exact foldl_push_pairs_nonempty _ _ _ h

theorem collect_foldl_update_client (hs : Bool) (w : List Object) (src : ChainId)
    (l : List IbcEvent) (col : CollectedEvents) (u : UpdateAttrs) (o : Object)
    (h : IbcEvent.UpdateClient u ∈ getEvents col.per_object o →
      Object.for_update_client u src = some o ∧ o ∈ w)
    (hx : IbcEvent.UpdateClient u ∈
      getEvents (l.foldl (collectEvent hs w src) col).per_object o) :
    Object.for_update_client u src = some o ∧ o ∈ w := by
  induction l generalizing col with
  | nil => exact h hx
  | cons e l ih =>
    simp only [List.foldl_cons] at hx
    refine ih _ ?_ hx
    intro hmem
    rw [collectEvent_per_object] at hmem
    rcases (mem_getEvents_foldl_push _ _ _ _ _).mp hmem with hm | ⟨ho, he⟩
    · exact h hm
    · subst he
      simp only [pushedObjects] at ho
      cases hu : Object.for_update_client u src with
      | none => rw [hu] at ho; simp at ho
      | some o' =>
        rw [hu] at ho
        by_cases hw : o' ∈ w
        · simp [hw] at ho
          subst ho
          exact ⟨rfl, hw⟩
        · simp [hw] at ho

theorem pushedObjects_no_channel {w : List Object} {src : ChainId} {e : IbcEvent}
    {o : Object} (ho : o ∈ pushedObjects false w src e) : o.isChannel = false := by
  cases e with
  | NewBlock hh => simp [pushedObjects] at ho
  | UpdateClient u =>
    simp only [pushedObjects] at ho
    cases hu : Object.for_update_client u src with
    | none => rw [hu] at ho; simp at ho
    | some o' =>
      rw [hu] at ho
      by_cases hw : o' ∈ w
      · simp [hw] at ho
        subst ho
        exact isChannel_for_update hu
      · simp [hw] at ho
  | OpenInitConnection a => simp [pushedObjects] at ho
  | OpenTryConnection a => simp [pushedObjects] at ho
  | OpenAckConnection a => simp [pushedObjects] at ho
  | OpenConfirmConnection a => simp [pushedObjects] at ho
  | OpenInitChannel a => simp [pushedObjects] at ho
  | OpenTryChannel a => simp [pushedObjects] at ho
  | OpenAckChannel a =>
    simp only [pushedObjects, Bool.if_false_left, List.mem_append,
      Option.mem_toList, Option.mem_def, if_false, List.not_mem_nil,
      or_false] at ho
    rcases ho with (hc | hp) | h0
    · exact isChannel_client_from hc
    · exact isChannel_packet_from hp
    · simp at h0
  | OpenConfirmChannel a =>
    simp only [pushedObjects, List.mem_append, Option.mem_toList,
      Option.mem_def] at ho
    rcases ho with hc | hp
    · exact isChannel_client_from hc
    · exact isChannel_packet_from hp
  | SendPacket p =>
    simp only [pushedObjects, Option.mem_toList, Option.mem_def] at ho
    exact isChannel_for_send ho
  | TimeoutPacket p =>
    simp only [pushedObjects, Option.mem_toList, Option.mem_def] at ho
    exact isChannel_for_timeout ho
  | WriteAcknowledgement p =>
    simp only [pushedObjects, Option.mem_toList, Option.mem_def] at ho
    exact isChannel_for_write_ack ho
  | CloseInitChannel p =>
    simp only [pushedObjects, Option.mem_toList, Option.mem_def] at ho
    exact isChannel_for_close_init ho
  | ChainError s => simp [pushedObjects] at ho

theorem collect_foldl_no_channel (w : List Object) (src : ChainId)
    (l : List IbcEvent) (col : CollectedEvents)
    (h : ∀ o, hasKey col.per_object o = true → o.isChannel = false) :
    ∀ o, hasKey (l.foldl (collectEvent false w src) col).per_object o = true →
      o.isChannel = false := by
  induction l generalizing col with
  | nil => exact h
  | cons e l ih =>
    simp only [List.foldl_cons]
    refine ih _ ?_
    intro o ho
    rw [collectEvent_per_object] at ho
    rcases (hasKey_foldl_push _ _ _ _).mp ho with ho | ho
    · exact h o ho
    · exact pushedObjects_no_channel ho

theorem collectEvent_open_ack_mem (hs : Bool) (w : List Object) (src : ChainId)
    (col : CollectedEvents) (a : ChanAttrs) (ch : ChannelId) (dst : ChainId)
    (cl : ClientId) (h1 : a.channel_id = some ch)
    (h2 : a.counterparty_chain_id = some dst)
    (h3 : a.counterparty_client_id = some cl) :
    IbcEvent.OpenAckChannel a ∈
      getEvents (collectEvent hs w src col (IbcEvent.OpenAckChannel a)).per_object
        (Object.Client dst cl src) ∧
    IbcEvent.OpenAckChannel a ∈
      getEvents (collectEvent hs w src col (IbcEvent.OpenAckChannel a)).per_object
        (Object.Packet dst src ch a.port_id) ∧
    (hs = true →
      IbcEvent.OpenAckChannel a ∈
        getEvents (collectEvent hs w src col (IbcEvent.OpenAckChannel a)).per_object
          (Object.Channel dst src ch a.port_id)) := by
  have hc : Object.client_from_chan_open_events a src =
      some (Object.Client dst cl src) := by
    simp [Object.client_from_chan_open_events, h1, h2, h3]
  have hp : Object.packet_from_chan_open_events a src =
      some (Object.Packet dst src ch a.port_id) := by
    simp [Object.packet_from_chan_open_events, h1, h2]
  have hch : Object.channel_from_chan_open_events a src =
      some (Object.Channel dst src ch a.port_id) := by
    simp [Object.channel_from_chan_open_events, h1, h2]
  refine ⟨?_, ?_, ?_⟩
  · rw [collectEvent_per_object]
    refine (mem_getEvents_foldl_push _ _ _ _ _).mpr (Or.inr ⟨?_, rfl⟩)
    simp [pushedObjects, hc, hp, hch]
  · rw [collectEvent_per_object]
    refine (mem_getEvents_foldl_push _ _ _ _ _).mpr (Or.inr ⟨?_, rfl⟩)
    simp [pushedObjects, hc, hp, hch]
  · intro hhs
    subst hhs
    rw [collectEvent_per_object]
    refine (mem_getEvents_foldl_push _ _ _ _ _).mpr (Or.inr ⟨?_, rfl⟩)
    simp [pushedObjects, hc, hp, hch]

theorem collect_foldl_open_ack (hs : Bool) (w : List Object) (src : ChainId)
    (l : List IbcEvent) (col : CollectedEvents) (a : ChanAttrs) (ch : ChannelId)
    (dst : ChainId) (cl : ClientId) (h1 : a.channel_id = some ch)
    (h2 : a.counterparty_chain_id = some dst)
    (h3 : a.counterparty_client_id = some cl)
    (hmem : IbcEvent.OpenAckChannel a ∈ l) :
    IbcEvent.OpenAckChannel a ∈
      getEvents (l.foldl (collectEvent hs w src) col).per_object
        (Object.Client dst cl src) ∧
    IbcEvent.OpenAckChannel a ∈
      getEvents (l.foldl (collectEvent hs w src) col).per_object
        (Object.Packet dst src ch a.port_id) ∧
    (hs = true →
      IbcEvent.OpenAckChannel a ∈
        getEvents (l.foldl (collectEvent hs w src) col).per_object
          (Object.Channel dst src ch a.port_id)) := by
  induction l generalizing col with
  | nil => cases hmem
  | cons e l ih =>
    simp only [List.foldl_cons]
    rcases List.mem_cons.mp hmem with heq | hmem'
    · subst heq
      have hstep := collectEvent_open_ack_mem hs w src col a ch dst cl h1 h2 h3
      exact ⟨mem_getEvents_collect_foldl _ _ _ _ _ _ _ hstep.1,
        mem_getEvents_collect_foldl _ _ _ _ _ _ _ hstep.2.1,
        fun hhs => mem_getEvents_collect_foldl _ _ _ _ _ _ _ (hstep.2.2 hhs)⟩
    · exact ih _ hmem'

theorem filter_not_id_append {l : List ChainConfig} {c : ChainConfig}
    (h : l.any (fun ch => ch.id == c.id) = false) :
    (l ++ [c]).filter (fun ch => !(ch.id == c.id)) = l := by
  rw [List.filter_append]
  have h1 : l.filter (fun ch => !(ch.id == c.id)) = l := by
    apply List.filter_eq_self.mpr
    intro ch hch
    have h2 : (ch.id == c.id) = false := by
      by_contra hcon
      have h3 : (ch.id == c.id) = true := by
        cases hb : (ch.id == c.id) with
        | false => exact absurd hb hcon
        | true => rfl
      have h4 : l.any (fun x => x.id == c.id) = true :=
        List.any_eq_true.mpr ⟨ch, hch, h3⟩
      rw [h4] at h
      exact Bool.noConfusion h
    simp [h2]
  rw [h1]
  simp

theorem has_chain_filter_self (cfg : Config) (id : ChainId) :
    Config.has_chain
      { cfg with chains := cfg.chains.filter (fun ch => !(ch.id == id)) } id =
      false := by
  unfold Config.has_chain
  simp only []
  by_contra hcon
  have h3 : (cfg.chains.filter (fun ch => !(ch.id == id))).any
      (fun ch => ch.id == id) = true := by
    cases hb : (cfg.chains.filter (fun ch => !(ch.id == id))).any
        (fun ch => ch.id == id) with
    | false => exact absurd hb hcon
    | true => rfl
  obtain ⟨ch, hch, heq⟩ := List.any_eq_true.mp h3
  have hne := List.of_mem_filter hch
  rw [heq] at hne
  exact Bool.noConfusion hne

/-- C7: if the global filter flag in the config is false, then
`relay_on_object` returns true for every chain id and every object,
regardless of the policy state and of `packets_on_channel_allowed`. -/
theorem relay_on_object_filter_disabled (env : Env) (cfg : Config) (cache : Cache)
    (chain_id : ChainId) (o : Object) (h : cfg.global.filter = false) :
    (relay_on_object env cfg cache chain_id o).1 = true := by
  simp [relay_on_object, channel_filter_enabled, client_filter_enabled, h]

/-- Witness for C7 at a concrete configuration and object. -/
theorem relay_on_object_filter_disabled_witness :
    cfgOff.global.filter = false ∧
      (relay_on_object envDeny cfgOff [] chainA pObj1).1 = true :=
  ⟨by decide, relay_on_object_filter_disabled envDeny cfgOff [] chainA pObj1 (by decide)⟩

/-- C5: for a `Packet` object, when the channel filter is enabled and
`packets_on_channel_allowed` returns false for the packet's source
chain, port and channel, `relay_on_object` returns false with the
permission cache untouched and no log emitted (the `control_*` methods
are not consulted). -/
theorem relay_on_object_channel_filter_short_circuit (env : Env) (cfg : Config)
    (cache : Cache) (chain_id dst src : ChainId) (ch : ChannelId) (pt : PortId)
    (hfilter : cfg.global.filter = true)
    (hdeny : cfg.packets_on_channel_allowed chain_id pt ch = false) :
    relay_on_object env cfg cache chain_id (Object.Packet dst src ch pt) =
      (false, cache, []) := by
  simp [relay_on_object, channel_filter_enabled, client_filter_enabled,
    packet_channel_denied, relay_packets_on_channel, hfilter, hdeny]

/-- Witness for C5: the filter is on and `channel-1` is not
allow-listed, so the packet object is denied with untouched cache and
no log. -/
theorem relay_on_object_channel_filter_short_circuit_witness :
    cfgOn.global.filter = true ∧
    cfgOn.packets_on_channel_allowed chainA ("transfer") ("channel-1") = false ∧
    relay_on_object envDeny cfgOn [] chainA
      (Object.Packet chainB chainA ("channel-1") ("transfer")) = (false, [], []) :=
  ⟨by decide, by decide,
    relay_on_object_channel_filter_short_circuit envDeny cfgOn [] chainA chainB
      chainA ("channel-1") ("transfer") (by decide) (by decide)⟩

/-- C6: for every object reaching the client-filter step of
`relay_on_object` (filter enabled, channel filter not denying), the
result is true iff the `control_*` method matching the object's variant
returns `Ok(Allow)`; both `Ok(Deny)` and `Err` produce false together
with a log line naming the object. -/
theorem relay_on_object_client_filter (env : Env) (cfg : Config) (cache : Cache)
    (chain_id : ChainId) (o : Object) (hfilter : cfg.global.filter = true)
    (hchan : packet_channel_denied cfg chain_id o = false) :
    ((relay_on_object env cfg cache chain_id o).1 = true ↔
      (control_for env cache o).1 = Except.ok Permission.Allow) ∧
    ((control_for env cache o).1 = Except.ok Permission.Deny →
      (relay_on_object env cfg cache chain_id o).2.2 =
        [LogEntry.clientFilterDeny o.short_name]) ∧
    (∀ er, (control_for env cache o).1 = Except.error er →
      (relay_on_object env cfg cache chain_id o).2.2 =
        [LogEntry.filterDenyErr o.short_name]) := by
  rcases hcf : control_for env cache o with ⟨outcome, cache'⟩
  cases outcome with
  | ok p =>
    cases p with
    | Allow =>
      simp [relay_on_object, channel_filter_enabled, client_filter_enabled,
        hfilter, hchan, hcf]
    | Deny =>
      simp [relay_on_object, channel_filter_enabled, client_filter_enabled,
        hfilter, hchan, hcf]
  | error er =>
    simp [relay_on_object, channel_filter_enabled, client_filter_enabled,
      hfilter, hchan, hcf]

/-- Witness for C6: an allowing policy yields true, a denying policy
yields false with the warn log naming the object. -/
theorem relay_on_object_client_filter_witness :
    cfgOn.global.filter = true ∧
    packet_channel_denied cfgOn chainA cObjAck = false ∧
    ((relay_on_object envW cfgOn [] chainA cObjAck).1 = true ↔
      (control_for envW [] cObjAck).1 = Except.ok Permission.Allow) ∧
    (relay_on_object envDeny cfgOn [] chainA cObjAck).2.2 =
      [LogEntry.clientFilterDeny cObjAck.short_name] :=
  ⟨by decide, by decide,
    (relay_on_object_client_filter envW cfgOn [] chainA cObjAck (by decide)
      (by decide)).1,
    (relay_on_object_client_filter envDeny cfgOn [] chainA cObjAck (by decide)
      (by decide)).2.1 (by decide)⟩

/-- C1: an `OpenAckChannel` event with well-formed channel attributes is
routed by `collect_events` under a `Client` object and under a `Packet`
object unconditionally, and under a `Channel` object iff
`handshake_enabled` is true (when it is false, no `Channel` key appears
at all); each of these objects receives the event in its per-object
list. -/
theorem collect_events_open_ack_channel (cfg : Config) (w : List Object)
    (src : ChainId) (batch : EventBatch) (a : ChanAttrs) (ch : ChannelId)
    (dst : ChainId) (cl : ClientId)
    (hmem : IbcEvent.OpenAckChannel a ∈ batch.events)
    (h1 : a.channel_id = some ch) (h2 : a.counterparty_chain_id = some dst)
    (h3 : a.counterparty_client_id = some cl) :
    IbcEvent.OpenAckChannel a ∈
      getEvents (collect_events cfg w src batch).per_object
        (Object.Client dst cl src) ∧
    IbcEvent.OpenAckChannel a ∈
      getEvents (collect_events cfg w src batch).per_object
        (Object.Packet dst src ch a.port_id) ∧
    (cfg.handshake_enabled = true →
      IbcEvent.OpenAckChannel a ∈
        getEvents (collect_events cfg w src batch).per_object
          (Object.Channel dst src ch a.port_id)) ∧
    (cfg.handshake_enabled = false →
      hasKey (collect_events cfg w src batch).per_object
        (Object.Channel dst src ch a.port_id) = false) := by
  unfold collect_events
  have hfold := collect_foldl_open_ack cfg.handshake_enabled w src batch.events
    (CollectedEvents.new batch.height batch.chain_id) a ch dst cl h1 h2 h3 hmem
  refine ⟨hfold.1, hfold.2.1, hfold.2.2, ?_⟩
  intro hhs
  rw [hhs]
  have hchan := collect_foldl_no_channel w src batch.events
    (CollectedEvents.new batch.height batch.chain_id)
    (fun o ho => by simp [CollectedEvents.new, hasKey] at ho)
  cases hk : hasKey
      (batch.events.foldl (collectEvent false w src)
        (CollectedEvents.new batch.height batch.chain_id)).per_object
      (Object.Channel dst src ch a.port_id) with
  | false => rfl
  | true => exact absurd (hchan _ hk) (by simp [Object.isChannel])

/-- Witness for C1 at a concrete one-event batch with handshake
relaying enabled: the event lands under all three objects. -/
theorem collect_events_open_ack_channel_witness :
    (IbcEvent.OpenAckChannel a0 ∈ batchAck.events) ∧
    IbcEvent.OpenAckChannel a0 ∈
      getEvents (collect_events cfgOn [] chainA batchAck).per_object cObjAck ∧
    IbcEvent.OpenAckChannel a0 ∈
      getEvents (collect_events cfgOn [] chainA batchAck).per_object pObj1 ∧
    IbcEvent.OpenAckChannel a0 ∈
      getEvents (collect_events cfgOn [] chainA batchAck).per_object chanObjAck :=
  ⟨by decide,
    (collect_events_open_ack_channel cfgOn [] chainA batchAck a0 ("channel-0")
      chainB ("client-0") (by decide) (by decide) (by decide) (by decide)).1,
    (collect_events_open_ack_channel cfgOn [] chainA batchAck a0 ("channel-0")
      chainB ("client-0") (by decide) (by decide) (by decide) (by decide)).2.1,
    (collect_events_open_ack_channel cfgOn [] chainA batchAck a0 ("channel-0")
      chainB ("client-0") (by decide) (by decide) (by decide)
      (by decide)).2.2.1 (by decide)⟩

/-- C4: an `UpdateClient` event appears in `per_object` only under the
object computed by `Object::for_update_client`, and only when the
`WorkerMap` already contains a worker for that object. -/
theorem collect_events_update_client_only_if (cfg : Config) (w : List Object)
    (src : ChainId) (batch : EventBatch) (u : UpdateAttrs) (o : Object)
    (hmem : IbcEvent.UpdateClient u ∈
      getEvents (collect_events cfg w src batch).per_object o) :
    Object.for_update_client u src = some o ∧ o ∈ w := by
  unfold collect_events at hmem
  exact collect_foldl_update_client _ _ _ _ _ _ _
    (fun h => by simp [CollectedEvents.new, getEvents] at h) hmem

/-- Witness for C4 at a concrete batch whose `UpdateClient` event has a
pre-existing worker. -/
theorem collect_events_update_client_only_if_witness :
    (IbcEvent.UpdateClient u0 ∈
      getEvents (collect_events cfgOff [uObj] chainA batchUpd).per_object uObj) ∧
    (Object.for_update_client u0 chainA = some uObj ∧ uObj ∈ [uObj]) :=
  ⟨by decide,
    collect_events_update_client_only_if cfgOff [uObj] chainA batchUpd u0 uObj
      (by decide)⟩

/-- C9: the `CollectedEvents` of a batch stores at most one `NewBlock` —
the `new_block` field equals the last `NewBlock` of the batch, a later
one replacing an earlier one — and `NewBlock` events never appear in
any per-object list. -/
theorem collect_events_new_block_spec (cfg : Config) (w : List Object)
    (src : ChainId) (batch : EventBatch) :
    (collect_events cfg w src batch).new_block = lastNewBlock batch.events ∧
    ∀ o x, x ∈ getEvents (collect_events cfg w src batch).per_object o →
      x.isNewBlock = false := by
  constructor
  · unfold collect_events lastNewBlock
    rw [collect_new_block_foldl]
    rfl
  · unfold collect_events
    exact collect_foldl_no_new_block _ _ _ _ _
      (fun o x hx => by simp [CollectedEvents.new, getEvents] at hx)

/-- Witness for C9 at a concrete batch holding two packets and a
`NewBlock`. -/
theorem collect_events_new_block_spec_witness :
    ((collect_events cfgOff [] chainA batchSend).new_block =
      lastNewBlock batchSend.events) ∧
    (IbcEvent.SendPacket pkt1 ∈
      getEvents (collect_events cfgOff [] chainA batchSend).per_object pObj1) ∧
    (IbcEvent.SendPacket pkt1).isNewBlock = false :=
  ⟨(collect_events_new_block_spec cfgOff [] chainA batchSend).1,
    by decide,
    (collect_events_new_block_spec cfgOff [] chainA batchSend).2 pObj1
      (IbcEvent.SendPacket pkt1) (by decide)⟩

/-- C10: every object key present in the `per_object` map produced by
`collect_events` maps to a non-empty event list (an entry is only
created together with a push of at least one event), so the
`events.is_empty()` skip branch of `process_batch` is unreachable on
classifier output. -/
theorem collect_events_per_object_nonempty (cfg : Config) (w : List Object)
    (src : ChainId) (batch : EventBatch) :
    ∀ p ∈ (collect_events cfg w src batch).per_object, p.2 ≠ [] := by
  unfold collect_events
  exact collect_foldl_nonempty _ _ _ _ _
    (fun p hp => by simp [CollectedEvents.new] at hp)

/-- Witness for C10 at a concrete batch. -/
theorem collect_events_per_object_nonempty_witness :
    ((pObj1, [IbcEvent.SendPacket pkt1]) ∈
      (collect_events cfgOff [] chainA batchSend).per_object) ∧
    ([IbcEvent.SendPacket pkt1] ≠ ([] : List IbcEvent)) :=
  ⟨by decide,
    collect_events_per_object_nonempty cfgOff [] chainA batchSend
      (pObj1, [IbcEvent.SendPacket pkt1]) (by decide)⟩

/-- C2: `add_chain` is a no-op returning `Nothing` when the chain is
already configured; otherwise it pushes the chain config and spawns the
runtime — on spawn failure it rolls the push back (leaving the whole
state as before the call) and returns `Nothing`, on success it spawns
the chain's workers and returns `ConfigChanged`. -/
theorem add_chain_spec (env : Env) (st : SupervisorSt) (c : ChainConfig) :
    (st.config.has_chain c.id = true →
      add_chain env st c = (CmdEffect.Nothing, st)) ∧
    (st.config.has_chain c.id = false →
      Registry.spawn env { st.config with chains := st.config.chains ++ [c] }
          st.registry c.id = Except.error () →
      add_chain env st c = (CmdEffect.Nothing, st)) ∧
    (∀ reg', st.config.has_chain c.id = false →
      Registry.spawn env { st.config with chains := st.config.chains ++ [c] }
          st.registry c.id = Except.ok reg' →
      add_chain env st c = (CmdEffect.ConfigChanged,
        { st with
          config := { st.config with chains := st.config.chains ++ [c] }
          registry := reg'
          workers := spawn_workers_for_chain env
            { st.config with chains := st.config.chains ++ [c] }
            st.workers c.id })) := by
  refine ⟨?_, ?_, ?_⟩
  · intro h
    simp [add_chain, h]
  · intro h hsp
    have hroll : (st.config.chains ++ [c]).filter (fun ch => !(ch.id == c.id)) =
        st.config.chains := filter_not_id_append h
    simp [add_chain, h, hsp, hroll]
  · intro reg' h hsp
    simp [add_chain, h, hsp]

/-- Witness for C2: both the spawn-failure rollback and the success
path, at concrete states. -/
theorem add_chain_spec_witness :
    stOff.config.has_chain ccC.id = false ∧
    Registry.spawn envFail
      { stOff.config with chains := stOff.config.chains ++ [ccC] }
      stOff.registry ccC.id = Except.error () ∧
    add_chain envFail stOff ccC = (CmdEffect.Nothing, stOff) ∧
    Registry.spawn envW
      { stOff.config with chains := stOff.config.chains ++ [ccC] }
      stOff.registry ccC.id = Except.ok [chainA, chainB, chainC] ∧
    add_chain envW stOff ccC = (CmdEffect.ConfigChanged,
      { stOff with
        config := { stOff.config with chains := stOff.config.chains ++ [ccC] }
        registry := [chainA, chainB, chainC]
        workers := spawn_workers_for_chain envW
          { stOff.config with chains := stOff.config.chains ++ [ccC] }
          stOff.workers ccC.id }) :=
  ⟨by decide, by decide,
    (add_chain_spec envFail stOff ccC).2.1 (by decide) (by decide),
    by decide,
    (add_chain_spec envW stOff ccC).2.2 [chainA, chainB, chainC] (by decide)
      (by decide)⟩

/-- C8: `remove_chain` is idempotent — after one call the chain is gone
from the config, so the second call performs no mutation and returns
`Nothing`, leaving the state of the first call untouched. -/
theorem remove_chain_idempotent (st : SupervisorSt) (id : ChainId) :
    (remove_chain st id).2.config.has_chain id = false ∧
    remove_chain (remove_chain st id).2 id =
      (CmdEffect.Nothing, (remove_chain st id).2) := by
  have hkey : (remove_chain st id).2.config.has_chain id = false := by
    cases h : st.config.has_chain id with
    | true =>
      simp only [remove_chain, h, Bool.not_true, Bool.false_eq_true, if_false]
      exact has_chain_filter_self st.config id
    | false => simp [remove_chain, h]
  refine ⟨hkey, ?_⟩
  generalize hgen : (remove_chain st id).2 = s1 at hkey ⊢
  simp [remove_chain, hkey]

/-- C3 counterexample: a batch classifies to two per-object entries and
a `NewBlock`; the send for the first entry fails (full channel for
`pObj1`), the second entry's send would succeed — yet nothing at all is
dispatched: the failing send prevents the remaining per-object entry
and the `NewBlock` notification, contradicting the claim. -/
theorem process_batch_send_failure_counterexample :
    (collect_events stOff.config stOff.workers batchSend.chain_id
        batchSend).per_object =
      [(pObj1, [IbcEvent.SendPacket pkt1]), (pObj2, [IbcEvent.SendPacket pkt2])] ∧
    (collect_events stOff.config stOff.workers batchSend.chain_id
        batchSend).new_block = some (IbcEvent.NewBlock (0, 5)) ∧
    envC.send_ok pObj1 = false ∧
    envC.send_ok pObj2 = true ∧
    (process_batch envC stOff batchSend).1 = some PBErr.sendErr ∧
    (process_batch envC stOff batchSend).2.2 = [] := by
  decide

/-- C3 (amended): a failed send on a worker channel makes the dispatch
loop of `process_batch` return the send error immediately — the failing
entry and every remaining per-object entry produce no dispatch, and the
`NewBlock` notification is skipped; the error is then logged at batch
level by `handle_batch` and does not escape, so the supervisor
continues with subsequent input. -/
theorem dispatch_send_failure_aborts (env : Env) (cfg : Config) (hgt : Height)
    (cid : ChainId) (o : Object) (evs : List IbcEvent)
    (rest : List (Object × List IbcEvent)) (st : PBSt) (reg1 reg2 : List ChainId)
    (hallow : (relay_on_object env cfg st.cache cid o).1 = true)
    (hne : evs ≠ [])
    (h1 : Registry.get_or_spawn env cfg st.registry o.src_chain_id =
      Except.ok reg1)
    (h2 : Registry.get_or_spawn env cfg reg1 o.dst_chain_id = Except.ok reg2)
    (hsend : env.send_ok o = false) :
    (dispatch_objects env cfg hgt cid ((o, evs) :: rest) st).1 =
      some PBErr.sendErr ∧
    (dispatch_objects env cfg hgt cid ((o, evs) :: rest) st).2.out = st.out ∧
    ∀ (s : SupervisorSt) (b : EventBatch) (e : PBErr),
      (process_batch env s b).1 = some e →
      (handle_batch env s (Except.ok b)).2.2 = [LogEntry.batchError e] := by
  obtain ⟨x, xs, rfl⟩ : ∃ x xs, evs = x :: xs := by
    cases evs with
    | nil => exact absurd rfl hne
    | cons x xs => exact ⟨x, xs, rfl⟩
  have hred : dispatch_objects env cfg hgt cid ((o, x :: xs) :: rest) st =
      (some PBErr.sendErr,
        { cache := (relay_on_object env cfg st.cache cid o).2.1
          registry := reg2
          workers := if o ∈ st.workers then st.workers else st.workers ++ [o]
          out := st.out }) := by
    simp [dispatch_objects, hallow, h1, h2, hsend]
  refine ⟨by rw [hred], by rw [hred], ?_⟩
  intro s b e hp
  rcases hq : process_batch env s b with ⟨err, s', out⟩
  rw [hq] at hp
  obtain rfl : err = some e := hp
  simp [handle_batch, hq]

/-- Witness for the amended C3 at a concrete failing send. -/
theorem dispatch_send_failure_aborts_witness :
    ((relay_on_object envC cfgOff pbSt0.cache chainA pObj1).1 = true) ∧
    (Registry.get_or_spawn envC cfgOff pbSt0.registry pObj1.src_chain_id =
      Except.ok [chainA, chainB]) ∧
    (Registry.get_or_spawn envC cfgOff [chainA, chainB] pObj1.dst_chain_id =
      Except.ok [chainA, chainB]) ∧
    envC.send_ok pObj1 = false ∧
    (dispatch_objects envC cfgOff (0, 5) chainA
      [(pObj1, [IbcEvent.SendPacket pkt1]), (pObj2, [IbcEvent.SendPacket pkt2])]
      pbSt0).1 = some PBErr.sendErr ∧
    (dispatch_objects envC cfgOff (0, 5) chainA
      [(pObj1, [IbcEvent.SendPacket pkt1]), (pObj2, [IbcEvent.SendPacket pkt2])]
      pbSt0).2.out = pbSt0.out :=
  ⟨by decide, by decide, by decide, by decide,
    (dispatch_send_failure_aborts envC cfgOff (0, 5) chainA pObj1
      [IbcEvent.SendPacket pkt1] [(pObj2, [IbcEvent.SendPacket pkt2])] pbSt0
      [chainA, chainB] [chainA, chainB] (by decide) (by decide) (by decide)
      (by decide) (by decide)).1,
    (dispatch_send_failure_aborts envC cfgOff (0, 5) chainA pObj1
      [IbcEvent.SendPacket pkt1] [(pObj2, [IbcEvent.SendPacket pkt2])] pbSt0
      [chainA, chainB] [chainA, chainB] (by decide) (by decide) (by decide)
      (by decide) (by decide)).2.1⟩

end Relayer
